import Mathlib

/-!
Shallow embedding of `src/tuya/tuya_monitor.py` (kadabusha/ping-notify-telegram).

The monitor is a single-threaded control loop.  Each iteration reads the
environment (ping results, cloud API responses, the clock), updates the
in-memory state (`last_state`, the two guard flags, `last_api_check`,
`last_api_retry_time`) and performs side effects (Telegram alerts, relay
`set_switch` commands, sleeps).  We model one iteration as a pure function
from a configuration, an environment record (the oracles' answers for this
iteration) and the current state to the next state plus an ordered list of
observable events.  Exceptions are modelled with `Except`, tagged by
whether the loop-boundary handler catches them: `requests.RequestException`
(transport) and `RuntimeError` are caught there, while the `TypeError`
raised when the delayed-retry path runs `ping_confirm` with no ping host
configured (the command list then contains a non-string) is caught nowhere
and terminates the process.
-/

namespace TuyaMonitor

/-- Observable side effects of one loop iteration, in program order.
`debugMsg` stands for a `telegram_debug`/`notify_error` call, `swCall d v`
for a `set_switch(d, v)` attempt, `pingConfirmRound` for one execution of
`ping_confirm` (one multi-packet ping invocation), `confirmCall` for an
invocation of `confirm_offline_status`, `apiOnlineCall` for a
`get_device_online` request, `pauseSleep` for the 15 s sleep inside the
restore batch and `endSleep` for the `time.sleep(PING_INTERVAL)` that ends
the iteration. -/
inductive Ev where
  | pingOnceCall
  | confirmCall
  | pingConfirmRound
  | apiOnlineCall
  | alertOutage
  | alertRestore
  | swCall (dev : String) (val : Bool)
  | pauseSleep (n : Nat)
  | debugMsg
  | endSleep (n : Nat)
deriving DecidableEq, Repr

/-- Python truthiness of an `Option Bool` value (`None`/`True`/`False`):
`None` and `False` are falsy. -/
def truthy (o : Option Bool) : Bool := o.getD false

/-- Lowercase a string character by character, as Python `str.lower` does on
the ASCII text the monitor handles. -/
def pyLower (s : String) : String := String.mk (s.data.map Char.toLower)

/-- Substring occurrence test on character lists (`needle in hay`). -/
def listSub (needle : List Char) : List Char → Bool
  | [] => needle.isEmpty
  | c :: cs => needle.isPrefixOf (c :: cs) || listSub needle cs

/-- Python's `needle in hay` on strings. -/
def pyContains (hay needle : String) : Bool := listSub needle.data hay.data

/-- Outcome of the cloud response to one `set_switch` HTTP POST:
a transport failure (`requests.RequestException`), a JSON parse failure
(`ValueError`), or a decoded JSON envelope, abstracted as its `success`
flag and the `str(data)` rendering checked for "already"/"offline". -/
inductive SwResp where
  | transportErr
  | parseErr
  | resp (success : Bool) (dataStr : String)
deriving DecidableEq, Repr

/-- Exception kinds `set_switch` can raise: `RuntimeError` or
`requests.RequestException`. -/
inductive SwErr where
  | runtime
  | transport
deriving DecidableEq, Repr

/-- `TuyaClient.set_switch` (tuya_monitor.py lines 410-468), given the
response outcome: a transport error is debug-notified and re-raised as a
`RequestException`; a parse error is debug-notified and raised as a
`RuntimeError`; a `success=false` envelope whose lowered `str(data)`
contains "already" or "offline" returns normally with no notification;
any other `success=false` envelope is debug-notified and raised as a
`RuntimeError`; a `success=true` envelope returns normally. -/
def set_switch_run (r : SwResp) : Except SwErr Unit × List Ev :=
  match r with
  | .transportErr => (.error .transport, [.debugMsg])
  | .parseErr => (.error .runtime, [.debugMsg])
  | .resp success dataStr =>
    if !success then
      let msg := pyLower dataStr
      if pyContains msg "already" || pyContains msg "offline" then
        (.ok (), [])
      else
        (.error .runtime, [.debugMsg])
    else
      (.ok (), [])

/-- `PING_CONFIRM_COUNT = int(os.getenv("PING_CONFIRM_COUNT", "10"))`:
the configured confirmation sample count, defaulting to 10. -/
def PING_CONFIRM_COUNT (envVal : Option Nat) : Nat := envVal.getD 10

/-- `use_count = PING_CONFIRM_COUNT if count is None else int(count)`
inside `ping_confirm`. -/
def ping_confirm_use_count (configured : Nat) (count : Option Nat) : Nat :=
  count.getD configured

/-- The ping command built by `ping_confirm` (line 156):
`ping -c use_count -i 1 -W 1 host` — `use_count` packets, one second
between packets, one second per-reply timeout. -/
def ping_confirm_cmd (useCount : Nat) (host : String) : List String :=
  ["ping", "-c", toString useCount, "-i", "1", "-W", "1", host]

/-- The decision `ping_confirm` takes from the parsed summary (lines
188-207): if the "received" count could not be parsed, fall back to
`returncode == 0`; otherwise declare reachable iff `received > 0`. -/
def ping_confirm_decision (received : Option Nat) (returncode : Nat) : Bool :=
  match received with
  | none => returncode == 0
  | some r => decide (r > 0)

/-- Cloud result of one `get_device_online` call: either the device's
reported online flag, or a raised error (`requests.RequestException` or
`RuntimeError`); `notified` records whether `notify_error` fired inside
the client before the raise (it does for a `success=false` envelope,
not for a transport error or a missing `online` field). -/
inductive ApiR where
  | ok (b : Bool)
  | err (notified : Bool)
deriving DecidableEq, Repr

/-- Environment of one `confirm_offline_status` invocation: the results of
the up to three `ping_confirm` rounds (`some true` = some packet received,
`some false` = none received, `none` = ping could not run) and the cloud
lookup outcome used if all three rounds fail. -/
structure ConfirmEnv where
  r1 : Option Bool
  r2 : Option Bool
  r3 : Option Bool
  api : ApiR
deriving DecidableEq, Repr

/-- `confirm_offline_status` (lines 214-272): run up to three
`ping_confirm` rounds, returning online as soon as one reports `True`;
if none does, ask the cloud for the device's online state; on a cloud
error, send a debug notification and keep the caller's previous state
(`last_online`). Returns the result together with the events emitted. -/
def confirm_offline_status (env : ConfirmEnv) (last_online : Option Bool) :
    Option Bool × List Ev :=
  if env.r1 = some true then
    (some true, [.pingConfirmRound])
  else if env.r2 = some true then
    (some true, [.pingConfirmRound, .pingConfirmRound])
  else if env.r3 = some true then
    (some true, [.pingConfirmRound, .pingConfirmRound, .pingConfirmRound])
  else
    match env.api with
    | .ok b =>
      (some b,
        [.pingConfirmRound, .pingConfirmRound, .pingConfirmRound, .apiOnlineCall])
    | .err notified =>
      (last_online,
        [.pingConfirmRound, .pingConfirmRound, .pingConfirmRound, .apiOnlineCall]
          ++ (if notified then [Ev.debugMsg] else []) ++ [Ev.debugMsg])

/-- Configuration loaded from the environment (lines 17-36):
`PING_TARGET_HOST` (optional), `TUYA_DEVICE_ID`, `DISABLE_DEVICE_IDS`,
`PING_INTERVAL` (default 10), `PING_CONFIRM_COUNT` (default 10),
`API_OFFLINE_INTERVAL` (default 300) and `API_RETRY_DELAY` (default 30). -/
structure Cfg where
  ping_host : Option String
  device_id : String
  disable_ids : List String
  ping_interval : Nat := 10
  ping_confirm_count : Nat := 10
  api_offline_interval : Int := 300
  api_retry_delay : Int := 30
deriving DecidableEq, Repr

/-- The loop's mutable variables (lines 479-483): `last_state` (the
previously recorded verdict, `none` before seeding), the two guard flags
`outage_handled`/`restore_handled` (Python truthiness of the stored
values), `last_api_check` and the optional `last_api_retry_time`. -/
structure St where
  last_state : Option Bool
  outage_handled : Bool
  restore_handled : Bool
  last_api_check : Int
  last_api_retry_time : Option Int
deriving DecidableEq, Repr

/-- The oracles' answers for one loop iteration: the current time, the
`ping_once` result (`some true`/`some false`/`none` for ok/failed/unable
to run), the `confirm_offline_status` environments for the primary path
and for the delayed-retry path, the `get_device_online` outcomes for the
ping-unavailable fallback and for the offline safety check, and the
`set_switch` response outcomes for the outage batch, the restore batch
(positional; missing entries default to success) and the primary device. -/
structure Env where
  now : Int
  ping_once : Option Bool
  confirm1 : ConfirmEnv
  confirm2 : ConfirmEnv
  api_fallback : ApiR
  api_safety : ApiR
  swOutage : List SwResp
  swRestore : List SwResp
  swPrimary : SwResp
deriving DecidableEq, Repr

/-- The events emitted by a raised `get_device_online` call before the
exception propagates. -/
def apiErrEvs (notified : Bool) : List Ev :=
  [.apiOnlineCall] ++ (if notified then [Ev.debugMsg] else [])

/-- Primary detection (lines 492-552): if a ping host is configured, run
`ping_once`; on success the input is online; on failure run
`confirm_offline_status`; if ping could not run, or if no ping host is
configured, ask the cloud directly (a raise there propagates, carried on
the `error` branch together with the events emitted so far). -/
def primaryStep (env : Env) (last_state : Option Bool) (hostConfigured : Bool) :
    Except (List Ev) (Option Bool × List Ev) :=
  if hostConfigured then
    match env.ping_once with
    | some true => .ok (some true, [.pingOnceCall])
    | some false =>
      let c := confirm_offline_status env.confirm1 last_state
      .ok (c.1, [.pingOnceCall, .confirmCall] ++ c.2)
    | none =>
      match env.api_fallback with
      | .ok b => .ok (some b, [.pingOnceCall, .apiOnlineCall])
      | .err n => .error ([Ev.pingOnceCall] ++ apiErrEvs n)
  else
    match env.api_fallback with
    | .ok b => .ok (some b, [.apiOnlineCall])
    | .err n => .error (apiErrEvs n)

/-- The delayed-retry guard (lines 557-560):
`last_api_retry_time is not None and now >= last_api_retry_time`. -/
def retryDue (env : Env) (st : St) : Bool :=
  match st.last_api_retry_time with
  | none => false
  | some t => decide (t ≤ env.now)

/-- How a raised exception relates to the loop-boundary handler at line
697: `catchable` for `requests.RequestException` / `RuntimeError` (the
two kinds it catches), `fatal` for the `TypeError` raised at line 161
when `ping_confirm` is given a `None` host — `" ".join(cmd)` on a command
list containing `None` — which neither `except (OSError,
subprocess.SubprocessError)` nor the loop boundary catches, so the
process terminates. -/
inductive RaiseKind where
  | catchable
  | fatal
deriving DecidableEq, Repr

/-- Primary detection followed by the delayed-retry block (lines 554-589):
if a retry is due, re-run `confirm_offline_status` — overwriting the
primary input — clear the schedule, and re-arm it `API_RETRY_DELAY`
seconds from now if the result is still not truthy.  The retry passes
`PING_TARGET_HOST` to `confirm_offline_status` even when no ping host is
configured (API-only mode); `ping_confirm(None)` then raises an uncaught
`TypeError` at line 161, modelled as a `fatal` raise.  Returns the
verdict input so far, the pending retry schedule and the events. -/
def preSafety (cfg : Cfg) (env : Env) (st : St) :
    Except (RaiseKind × List Ev) (Option Bool × Option Int × List Ev) :=
  match primaryStep env st.last_state cfg.ping_host.isSome with
  | .error evs => .error (.catchable, evs)
  | .ok (online0, evs0) =>
    if retryDue env st then
      match cfg.ping_host with
      | some _ =>
        let c := confirm_offline_status env.confirm2 st.last_state
        let retry1 : Option Int :=
          if truthy c.1 then none else some (env.now + cfg.api_retry_delay)
        .ok (c.1, retry1, evs0 ++ [Ev.confirmCall] ++ c.2)
      | none =>
        .error (.fatal, evs0 ++ [Ev.confirmCall])
    else
      .ok (online0, st.last_api_retry_time, evs0)

/-- Result of resolving the iteration's verdict input: the input itself
plus the updated `last_api_check` and retry schedule, and the events
emitted while resolving. -/
structure Resolved where
  online : Option Bool
  last_api_check : Int
  retry : Option Int
  evs : List Ev
deriving DecidableEq, Repr

/-- Input resolution for one iteration (lines 489-628): primary detection,
delayed retry, then the API safety check — if the input so far is not
truthy and more than `API_OFFLINE_INTERVAL` seconds have passed since
`last_api_check`, force a cloud lookup; on success it becomes the input
and `last_api_check` advances (scheduling a retry if it reported offline);
on a raised error the exception is caught there, a debug notification is
sent, the input is held at `last_state` and a retry is scheduled. -/
def resolveInput (cfg : Cfg) (env : Env) (st : St) :
    Except (RaiseKind × List Ev) Resolved :=
  match preSafety cfg env st with
  | .error e => .error e
  | .ok (online1, retry1, evs1) =>
    if !truthy online1 && decide (env.now - st.last_api_check > cfg.api_offline_interval) then
      match env.api_safety with
      | .ok b =>
        .ok { online := some b
              last_api_check := env.now
              retry := if b then retry1 else some (env.now + cfg.api_retry_delay)
              evs := evs1 ++ [Ev.apiOnlineCall] }
      | .err n =>
        .ok { online := st.last_state
              last_api_check := st.last_api_check
              retry := some (env.now + cfg.api_retry_delay)
              evs := evs1 ++ apiErrEvs n ++ [Ev.debugMsg] }
    else
      .ok { online := online1
            last_api_check := st.last_api_check
            retry := retry1
            evs := evs1 }

/-- The outage actuation batch (lines 656-660): for each configured device
attempt `set_switch(dev, False)`; a raised `RuntimeError` is swallowed
(`pass`) and the loop continues with the next device, but a raised
`RequestException` propagates out of the batch (only `RuntimeError` is
caught there).  Returns the events and whether an exception escaped. -/
def runOutage : List String → List SwResp → List Ev × Bool
  | [], _ => ([], false)
  | d :: ds, resps =>
    let s := set_switch_run (resps.headD (.resp true ""))
    match s.1 with
    | .error .transport => ([Ev.swCall d false] ++ s.2, true)
    | _ =>
      let rest := runOutage ds resps.tail
      ([Ev.swCall d false] ++ s.2 ++ rest.1, rest.2)

/-- The restore actuation batch (lines 669-680): for each configured
device attempt `set_switch(dev, True)`; both `RuntimeError` and
`RequestException` are caught and logged, then the loop sleeps 15 s and
continues — the batch never lets an exception escape. -/
def runRestore : List String → List SwResp → List Ev
  | [], _ => []
  | d :: ds, resps =>
    let s := set_switch_run (resps.headD (.resp true ""))
    [Ev.swCall d true] ++ s.2 ++ [Ev.pauseSleep 15] ++ runRestore ds resps.tail

/-- Verdict handling after input resolution (lines 632-693): seed the
first verdict without actuating; otherwise on a changed input reset the
guard flags for the new direction, record the input as `last_state`, and
run the outage or restore actuation if its guard flag is clear.  Returns
the next state, the events, and whether an exception escaped the outage
batch. -/
def postInput (cfg : Cfg) (env : Env) (st : St) (r : Resolved) :
    St × List Ev × Bool :=
  let stA : St :=
    { last_state := st.last_state
      outage_handled := st.outage_handled
      restore_handled := st.restore_handled
      last_api_check := r.last_api_check
      last_api_retry_time := r.retry }
  if st.last_state = none then
    ({ stA with
        last_state := r.online
        outage_handled := !truthy r.online
        restore_handled := truthy r.online },
      r.evs, false)
  else
    let flags : Bool × Bool :=
      if r.online ≠ st.last_state then
        if truthy r.online then (true, false) else (false, true)
      else
        (st.outage_handled, st.restore_handled)
    let st1 : St := { stA with
      last_state := r.online
      outage_handled := flags.1
      restore_handled := flags.2 }
    if !truthy r.online && !flags.1 then
      let batch := runOutage cfg.disable_ids env.swOutage
      let evs := r.evs ++ [Ev.alertOutage] ++ batch.1
      if batch.2 then
        (st1, evs, true)
      else
        ({ st1 with outage_handled := true, restore_handled := false }, evs, false)
    else if truthy r.online && !flags.2 then
      let batch := runRestore cfg.disable_ids env.swRestore
      let p := set_switch_run env.swPrimary
      let evs := r.evs ++ [Ev.alertRestore] ++ batch
        ++ [Ev.swCall cfg.device_id true] ++ p.2
      ({ st1 with restore_handled := true, outage_handled := false }, evs, false)
    else
      (st1, r.evs, false)

/-- Outcome of one full loop iteration: next state, events, whether the
loop-boundary handler (lines 697-700) caught an exception, and whether an
uncatchable exception terminated the process instead. -/
structure CycleOut where
  st : St
  evs : List Ev
  caught : Bool
  crashed : Bool
deriving DecidableEq, Repr

/-- One full loop iteration including the boundary handler: a catchable
exception raised inside the iteration is caught at the loop boundary,
debug-notified (`notify_error("main_loop", ...)`), and followed by the
normal `time.sleep(PING_INTERVAL)`; a normal iteration also ends with
that sleep; a fatal raise (the `TypeError` of the no-host retry path)
propagates out of `main` and the process terminates with neither
notification nor sleep. -/
def cycle (cfg : Cfg) (env : Env) (st : St) : CycleOut :=
  match resolveInput cfg env st with
  | .error (.catchable, evs) =>
    ⟨st, evs ++ [Ev.debugMsg, Ev.endSleep cfg.ping_interval], true, false⟩
  | .error (.fatal, evs) =>
    ⟨st, evs, false, true⟩
  | .ok r =>
    let p := postInput cfg env st r
    if p.2.2 then
      ⟨p.1, p.2.1 ++ [Ev.debugMsg, Ev.endSleep cfg.ping_interval], true, false⟩
    else
      ⟨p.1, p.2.1 ++ [Ev.endSleep cfg.ping_interval], false, false⟩

/-- The state after one iteration. -/
def cycleSt (cfg : Cfg) (env : Env) (st : St) : St := (cycle cfg env st).st

/-- Run the loop over a list of per-iteration environments, collecting all
events in order; a crashed iteration terminates the process, so no
further environment is processed. -/
def run (cfg : Cfg) (st : St) : List Env → St × List Ev
  | [] => (st, [])
  | e :: es =>
    let o := cycle cfg e st
    if o.crashed then
      (o.st, o.evs)
    else
      let rest := run cfg o.st es
      (rest.1, o.evs ++ rest.2)

/-- An event is an actuation event if it is an alert, a `set_switch`
attempt or the restore batch's inter-device sleep. -/
def isActEv : Ev → Bool
  | .alertOutage => true
  | .alertRestore => true
  | .swCall _ _ => true
  | .pauseSleep _ => true
  | _ => false

/-- Projection of an event list onto its actuation events. -/
def actView (evs : List Ev) : List Ev := evs.filter isActEv

/-- The guard flags are consistent with the recorded verdict: the handled
flag for the current state's direction is set (vacuous before seeding). -/
def flagsOk (st : St) : Bool :=
  match st.last_state with
  | none => true
  | some true => st.restore_handled
  | some false => st.outage_handled

/-- No outcome in a `set_switch` response list is a transport error. -/
def noTransport (resps : List SwResp) : Bool :=
  resps.all fun r => decide (r ≠ SwResp.transportErr)

/-- Expected actuation view of the outage batch: one `set_switch(d, False)`
attempt per configured device, in order. -/
def outageActs : List String → List Ev
  | [] => []
  | d :: ds => Ev.swCall d false :: outageActs ds

/-- Expected actuation view of the restore batch: one
`set_switch(d, True)` attempt per configured device, in order, each
followed by the 15 s pause. -/
def restoreActs : List String → List Ev
  | [] => []
  | d :: ds => Ev.swCall d true :: Ev.pauseSleep 15 :: restoreActs ds

/-- The verdict input an iteration resolves to, or `none` when input
resolution raises to the loop boundary. -/
def inputOnline (cfg : Cfg) (env : Env) (st : St) : Option (Option Bool) :=
  match resolveInput cfg env st with
  | .ok r => some r.online
  | .error _ => none

/-- The verdict input as it stands just before the API safety check
(after primary detection and the delayed-retry block), or `none` when the
primary path raises. -/
def preSafetyOnline (cfg : Cfg) (env : Env) (st : St) : Option (Option Bool) :=
  match preSafety cfg env st with
  | .ok x => some x.1
  | .error _ => none

/-- Boolean trace predicate: every environment in the list resolves (from
the evolving state) to the verdict input `some b`. -/
def sameObs (cfg : Cfg) (b : Bool) : St → List Env → Bool
  | _, [] => true
  | st, e :: es =>
    (inputOnline cfg e st == some (some b)) && sameObs cfg b (cycleSt cfg e st) es

/-- Number of `confirm_offline_status` invocations recorded in an event
list. -/
def confirmCalls : List Ev → Nat
  | [] => 0
  | Ev.confirmCall :: es => confirmCalls es + 1
  | _ :: es => confirmCalls es

/-! ## Concrete fixtures used by witnesses and counterexamples -/

/-- A configuration with a ping host, a primary device and two relay
devices, all timing values at their source defaults. -/
def cfgW : Cfg := { ping_host := some "gw", device_id := "pdev", disable_ids := ["d1", "d2"] }

/-- Confirmation rounds that all fail, cloud reporting offline. -/
def confirmFail : ConfirmEnv := ⟨some false, some false, some false, .ok false⟩

/-- Confirmation rounds that all fail, cloud lookup raising. -/
def confirmFailErr : ConfirmEnv := ⟨some false, some false, some false, .err true⟩

/-- Confirmation whose first round succeeds. -/
def confirmOk : ConfirmEnv := ⟨some true, some false, some false, .ok true⟩

/-- A successful `set_switch` response. -/
def swOK : SwResp := .resp true ""

/-- Seeded-online state with consistent guard flags. -/
def stOnW : St := ⟨some true, false, true, 0, none⟩

/-- Seeded-offline state with consistent guard flags. -/
def stOffW : St := ⟨some false, true, false, 0, none⟩

/-- Unseeded state as set up at the start of `main`. -/
def stNoneW : St := ⟨none, false, false, 0, none⟩

/-- Seeded-offline state with a delayed retry scheduled and already due. -/
def stRetryW : St := ⟨some false, true, false, 0, some 5⟩

/-- Iteration observing an offline input (ping fails, confirmation fails,
cloud agrees), all actuations succeeding. -/
def envB : Env := ⟨10, some false, confirmFail, confirmFail, .ok false, .ok false, [], [], swOK⟩

/-- Same observation at a later time. -/
def envB2 : Env := ⟨20, some false, confirmFail, confirmFail, .ok false, .ok false, [], [], swOK⟩

/-- Offline observation whose first outage `set_switch` hits a transport
error. -/
def envBbad : Env :=
  ⟨10, some false, confirmFail, confirmFail, .ok false, .ok false, [.transportErr], [], swOK⟩

/-- Online observation (ping succeeds); the first restore `set_switch`
returns a non-benign failure envelope. -/
def envOn : Env := ⟨10, some true, confirmOk, confirmOk, .ok true, .ok true, [], [.resp false "rate limit"], swOK⟩

/-- Ping succeeds but a due delayed retry re-runs a confirmation that
reports offline. -/
def envRetryPing : Env := ⟨10, some true, confirmOk, confirmFail, .ok true, .ok true, [], [], swOK⟩

/-- Pre-seed iteration whose probe fails, whose confirmation rounds all
fail and whose cloud lookups raise: the input stays indeterminate. -/
def envInd : Env := ⟨10, some false, confirmFailErr, confirmOk, .ok true, .err false, [], [], swOK⟩

/-- Iteration where the input is offline, the safety-check interval has
elapsed and the forced cloud lookup raises. -/
def envSafety : Env := ⟨400, some false, confirmFail, confirmFail, .ok false, .err true, [], [], swOK⟩

/-- A configuration with no ping host: the "Ping disabled, use API only"
mode of line 541. -/
def cfgApi : Cfg := { ping_host := none, device_id := "pdev", disable_ids := ["d1", "d2"] }

/-- Seeded-offline state in API-only mode with a delayed retry scheduled
and already due. -/
def stOffApi : St := ⟨some false, true, false, 0, some 5⟩

/-- API-only iteration that reaches the due delayed retry: the cloud
reports offline, then the retry calls `confirm_offline_status` with the
unset ping host. -/
def envDueRetry : Env := ⟨10, none, confirmOk, confirmOk, .ok false, .ok false, [], [], swOK⟩

/-- API-only iteration whose primary cloud lookup raises a catchable
error before the retry block is reached. -/
def envApiErrOnly : Env := ⟨10, none, confirmOk, confirmOk, .err true, .ok false, [], [], swOK⟩

/-! ## Helper lemmas about the emitted events -/

lemma actView_append (a b : List Ev) : actView (a ++ b) = actView a ++ actView b := by
  simp [actView]

lemma set_switch_actView (r : SwResp) : actView (set_switch_run r).2 = [] := by
  cases r with
  | transportErr => rfl
  | parseErr => rfl
  | resp success dataStr =>
    unfold set_switch_run
    dsimp only
    split_ifs <;> rfl

lemma confirm_actView (env : ConfirmEnv) (last : Option Bool) :
    actView (confirm_offline_status env last).2 = [] := by
  unfold confirm_offline_status
  rcases env with ⟨r1, r2, r3, api⟩
  dsimp only
  split_ifs <;> try rfl
  cases api with
  | ok b => rfl
  | err n => cases n <;> rfl

lemma apiErrEvs_actView (n : Bool) : actView (apiErrEvs n) = [] := by
  cases n <;> rfl

lemma filter_confirm (env : ConfirmEnv) (last : Option Bool) :
    List.filter isActEv (confirm_offline_status env last).2 = [] :=
  confirm_actView env last

lemma filter_apiErrEvs (n : Bool) :
    List.filter isActEv (apiErrEvs n) = [] :=
  apiErrEvs_actView n

lemma primaryStep_ok_actView {env : Env} {last : Option Bool} {hc : Bool}
    {p : Option Bool × List Ev} (h : primaryStep env last hc = .ok p) :
    actView p.2 = [] := by
  unfold primaryStep at h
  split at h
  case isTrue =>
    split at h
    case h_1 => simp only [Except.ok.injEq] at h; subst h; rfl
    case h_2 =>
      simp only [Except.ok.injEq] at h; subst h
      simp [actView, List.filter_append, isActEv, filter_confirm]
    case h_3 =>
      split at h
      case h_1 => simp only [Except.ok.injEq] at h; subst h; rfl
      case h_2 => simp at h
  case isFalse =>
    split at h
    case h_1 => simp only [Except.ok.injEq] at h; subst h; rfl
    case h_2 => simp at h

lemma preSafety_ok_actView {cfg : Cfg} {env : Env} {st : St}
    {x : Option Bool × Option Int × List Ev} (h : preSafety cfg env st = .ok x) :
    actView x.2.2 = [] := by
  unfold preSafety at h
  cases hp : primaryStep env st.last_state cfg.ping_host.isSome with
  | error evs => rw [hp] at h; simp at h
  | ok p =>
    rw [hp] at h
    have hpv : List.filter isActEv p.2 = [] := primaryStep_ok_actView hp
    dsimp only at h
    split at h
    · split at h
      · simp only [Except.ok.injEq] at h; subst h
        simp [actView, List.filter_append, isActEv, filter_confirm, hpv]
      · simp at h
    · simp only [Except.ok.injEq] at h; subst h
      exact hpv

lemma resolveInput_ok_actView {cfg : Cfg} {env : Env} {st : St}
    {r : Resolved} (h : resolveInput cfg env st = .ok r) :
    actView r.evs = [] := by
  unfold resolveInput at h
  cases hp : preSafety cfg env st with
  | error evs => rw [hp] at h; simp at h
  | ok x =>
    rw [hp] at h
    have hpv : List.filter isActEv x.2.2 = [] := preSafety_ok_actView hp
    dsimp only at h
    split at h
    · cases hs : env.api_safety with
      | ok b =>
        rw [hs] at h
        simp only [Except.ok.injEq] at h
        subst h
        simp [actView, List.filter_append, isActEv, hpv]
      | err n =>
        rw [hs] at h
        simp only [Except.ok.injEq] at h
        subst h
        simp [actView, List.filter_append, isActEv, filter_apiErrEvs, hpv]
    · simp only [Except.ok.injEq] at h
      subst h
      exact hpv

lemma filter_set_switch (r : SwResp) :
    List.filter isActEv (set_switch_run r).2 = [] :=
  set_switch_actView r

lemma runRestore_actView : ∀ (devs : List String) (resps : List SwResp),
    actView (runRestore devs resps) = restoreActs devs := by
  intro devs
  induction devs with
  | nil => intro resps; rfl
  | cons d ds ih =>
    intro resps
    have ihf : List.filter isActEv (runRestore ds resps.tail) = restoreActs ds :=
      ih resps.tail
    unfold runRestore restoreActs
    simp [actView, List.filter_append, isActEv, filter_set_switch, ihf]

lemma set_switch_run_not_transport {r : SwResp} (h : r ≠ SwResp.transportErr) :
    (set_switch_run r).1 ≠ Except.error SwErr.transport := by
  cases r with
  | transportErr => exact absurd rfl h
  | parseErr => simp [set_switch_run]
  | resp s d =>
    unfold set_switch_run
    dsimp only
    split_ifs <;> simp

lemma noTransport_headD {resps : List SwResp} (h : noTransport resps = true) :
    resps.headD (SwResp.resp true "") ≠ SwResp.transportErr := by
  cases resps with
  | nil => simp
  | cons r rs =>
    simp only [noTransport, List.all_cons, Bool.and_eq_true, decide_eq_true_eq] at h
    simpa using h.1

lemma noTransport_tail {resps : List SwResp} (h : noTransport resps = true) :
    noTransport resps.tail = true := by
  cases resps with
  | nil => rfl
  | cons r rs =>
    simp only [noTransport, List.all_cons, Bool.and_eq_true] at h
    simpa [noTransport] using h.2

lemma runOutage_noTransport : ∀ (devs : List String) (resps : List SwResp),
    noTransport resps = true →
    (runOutage devs resps).2 = false ∧
      actView (runOutage devs resps).1 = outageActs devs := by
  intro devs
  induction devs with
  | nil => intro resps _; exact ⟨rfl, rfl⟩
  | cons d ds ih =>
    intro resps h
    obtain ⟨ihe, iha⟩ := ih resps.tail (noTransport_tail h)
    have hhd := set_switch_run_not_transport (noTransport_headD h)
    have ihaf : List.filter isActEv (runOutage ds resps.tail).1 = outageActs ds := iha
    unfold runOutage outageActs
    cases hsw : (set_switch_run (resps.headD (SwResp.resp true ""))).1 with
    | ok u =>
      dsimp only
      rw [hsw]
      refine ⟨ihe, ?_⟩
      simp [actView, List.filter_append, isActEv, filter_set_switch, ihaf]
    | error e =>
      cases e with
      | transport => exact absurd hsw hhd
      | runtime =>
        dsimp only
        rw [hsw]
        refine ⟨ihe, ?_⟩
        simp [actView, List.filter_append, isActEv, filter_set_switch, ihaf]

lemma flagsOk_some (st : St) (b : Bool) (h : st.last_state = some b) :
    flagsOk st = (if b then st.restore_handled else st.outage_handled) := by
  cases b <;> simp [flagsOk, h]

lemma cycle_same_state {cfg : Cfg} {env : Env} {st : St} {b : Bool} {r : Resolved}
    (hs : st.last_state = some b) (hf : flagsOk st = true)
    (hr : resolveInput cfg env st = .ok r) (hb : r.online = some b) :
    (cycle cfg env st).evs = r.evs ++ [Ev.endSleep cfg.ping_interval] ∧
    (cycle cfg env st).st.last_state = some b ∧
    (cycle cfg env st).st.outage_handled = st.outage_handled ∧
    (cycle cfg env st).st.restore_handled = st.restore_handled ∧
    (cycle cfg env st).st.last_api_retry_time = r.retry ∧
    (cycle cfg env st).caught = false ∧
    (cycle cfg env st).crashed = false := by
  have hfb := (flagsOk_some st b hs).symm.trans hf
  cases b with
  | false =>
    have h1 : st.outage_handled = true := by simpa using hfb
    simp [cycle, hr, postInput, hs, hb, truthy, h1]
  | true =>
    have h1 : st.restore_handled = true := by simpa using hfb
    simp [cycle, hr, postInput, hs, hb, truthy, h1]

lemma cycle_seed {cfg : Cfg} {env : Env} {st : St} {r : Resolved}
    (hs : st.last_state = none) (hr : resolveInput cfg env st = .ok r) :
    (cycle cfg env st).evs = r.evs ++ [Ev.endSleep cfg.ping_interval] ∧
    (cycle cfg env st).st.last_state = r.online ∧
    (cycle cfg env st).st.outage_handled = !truthy r.online ∧
    (cycle cfg env st).st.restore_handled = truthy r.online ∧
    (cycle cfg env st).st.last_api_retry_time = r.retry ∧
    (cycle cfg env st).caught = false ∧
    flagsOk (cycle cfg env st).st = true ∧
    (cycle cfg env st).crashed = false := by
  refine ⟨?_, ?_, ?_, ?_, ?_, ?_, ?_, ?_⟩ <;>
    simp [cycle, hr, postInput, hs]
  cases ho : r.online with
  | none => simp [flagsOk, cycle, hr, postInput, hs, ho]
  | some b => cases b <;> simp [flagsOk, cycle, hr, postInput, hs, ho, truthy]

lemma cycle_transition {cfg : Cfg} {env : Env} {st : St} {a b : Bool} {r : Resolved}
    (hs : st.last_state = some a) (hab : a ≠ b)
    (hr : resolveInput cfg env st = .ok r) (hb : r.online = some b)
    (hg : b = false → noTransport env.swOutage = true) :
    actView (cycle cfg env st).evs =
      (if b then
        Ev.alertRestore :: (restoreActs cfg.disable_ids ++ [Ev.swCall cfg.device_id true])
      else
        Ev.alertOutage :: outageActs cfg.disable_ids) ∧
    (cycle cfg env st).st.last_state = some b ∧
    flagsOk (cycle cfg env st).st = true ∧
    (cycle cfg env st).caught = false ∧
    (cycle cfg env st).crashed = false := by
  have hract : List.filter isActEv r.evs = [] := resolveInput_ok_actView hr
  cases b with
  | true =>
    have ha : a = false := by cases a <;> simp_all
    subst ha
    have hrest : List.filter isActEv (runRestore cfg.disable_ids env.swRestore)
        = restoreActs cfg.disable_ids := runRestore_actView _ _
    have hprim : List.filter isActEv (set_switch_run env.swPrimary).2 = [] :=
      filter_set_switch _
    refine ⟨?_, ?_, ?_, ?_, ?_⟩ <;>
      simp [cycle, hr, postInput, hs, hb, truthy, flagsOk, actView,
        List.filter_append, isActEv, hract, hrest, hprim]
  | false =>
    have ha : a = true := by cases a <;> simp_all
    subst ha
    obtain ⟨hesc, hacts⟩ := runOutage_noTransport cfg.disable_ids env.swOutage (hg rfl)
    have hactf : List.filter isActEv (runOutage cfg.disable_ids env.swOutage).1
        = outageActs cfg.disable_ids := hacts
    refine ⟨?_, ?_, ?_, ?_, ?_⟩ <;>
      simp [cycle, hr, postInput, hs, hb, truthy, flagsOk, actView,
        List.filter_append, isActEv, hract, hesc, hactf]

lemma run_sameObs {cfg : Cfg} {b : Bool} : ∀ (es : List Env) (st : St),
    st.last_state = some b → flagsOk st = true → sameObs cfg b st es = true →
    actView (run cfg st es).2 = [] ∧
    (run cfg st es).1.last_state = some b ∧
    flagsOk (run cfg st es).1 = true := by
  intro es
  induction es with
  | nil =>
    intro st hs hf _
    exact ⟨rfl, hs, hf⟩
  | cons e es ih =>
    intro st hs hf hobs
    simp only [sameObs, Bool.and_eq_true, beq_iff_eq] at hobs
    obtain ⟨hin, hrest⟩ := hobs
    unfold inputOnline at hin
    cases hre : resolveInput cfg e st with
    | error evs => rw [hre] at hin; simp at hin
    | ok r =>
      rw [hre] at hin
      simp only [Option.some.injEq] at hin
      obtain ⟨hevs, hls, hoh, hrh, _, _, hcr⟩ := cycle_same_state hs hf hre hin
      have hfval := (flagsOk_some st b hs).symm.trans hf
      have hf' : flagsOk (cycle cfg e st).st = true := by
        rw [flagsOk_some _ b hls]
        cases b
        · rw [hoh]; simpa using hfval
        · rw [hrh]; simpa using hfval
      have hih := ih (cycleSt cfg e st) hls hf' hrest
      have hrun : run cfg st (e :: es) =
          ((run cfg (cycleSt cfg e st) es).1,
            (cycle cfg e st).evs ++ (run cfg (cycleSt cfg e st) es).2) := by
        simp [run, cycleSt, hcr]
      rw [hrun]
      refine ⟨?_, hih.2.1, hih.2.2⟩
      show actView ((cycle cfg e st).evs ++ (run cfg (cycleSt cfg e st) es).2) = []
      rw [actView_append, hih.1, hevs, actView_append, resolveInput_ok_actView hre]
      rfl

lemma confirmCalls_append (a b : List Ev) :
    confirmCalls (a ++ b) = confirmCalls a + confirmCalls b := by
  induction a with
  | nil => simp [confirmCalls]
  | cons e es ih =>
    cases e <;> simp [confirmCalls, ih]
    omega

lemma confirmCalls_confirm (e : ConfirmEnv) (l : Option Bool) :
    confirmCalls (confirm_offline_status e l).2 = 0 := by
  unfold confirm_offline_status
  rcases e with ⟨r1, r2, r3, api⟩
  dsimp only
  split_ifs <;> try rfl
  cases api with
  | ok b => rfl
  | err n => cases n <;> rfl

lemma confirmCalls_set_switch (r : SwResp) :
    confirmCalls (set_switch_run r).2 = 0 := by
  cases r with
  | transportErr => rfl
  | parseErr => rfl
  | resp s d =>
    unfold set_switch_run
    dsimp only
    split_ifs <;> rfl

lemma confirmCalls_apiErrEvs (n : Bool) : confirmCalls (apiErrEvs n) = 0 := by
  cases n <;> rfl

lemma confirmCalls_runOutage : ∀ (ds : List String) (rs : List SwResp),
    confirmCalls (runOutage ds rs).1 = 0 := by
  intro ds
  induction ds with
  | nil => intro rs; rfl
  | cons d ds ih =>
    intro rs
    unfold runOutage
    dsimp only
    cases hsw : (set_switch_run (rs.headD (SwResp.resp true ""))).1 with
    | ok u =>
      simp [confirmCalls, confirmCalls_append, confirmCalls_set_switch, ih rs.tail]
    | error e =>
      cases e <;>
        simp [confirmCalls, confirmCalls_append, confirmCalls_set_switch, ih rs.tail]

lemma confirmCalls_runRestore : ∀ (ds : List String) (rs : List SwResp),
    confirmCalls (runRestore ds rs) = 0 := by
  intro ds
  induction ds with
  | nil => intro rs; rfl
  | cons d ds ih =>
    intro rs
    unfold runRestore
    simp [confirmCalls, confirmCalls_append, confirmCalls_set_switch, ih rs.tail]

lemma confirmCalls_postInput (cfg : Cfg) (env : Env) (st : St) (r : Resolved) :
    confirmCalls (postInput cfg env st r).2.1 = confirmCalls r.evs := by
  unfold postInput
  dsimp only
  split_ifs <;>
    simp [confirmCalls, confirmCalls_append, confirmCalls_runOutage,
      confirmCalls_runRestore, confirmCalls_set_switch]

lemma count_true_any (samples : List Bool) :
    decide (samples.count true > 0) = samples.any (fun x => x) := by
  induction samples with
  | nil => rfl
  | cons s ss ih =>
    cases s <;> simp [List.count_cons, List.any_cons, ← ih]

lemma confirmCalls_cycle (cfg : Cfg) (env : Env) (st : St) :
    confirmCalls (cycle cfg env st).evs =
      (match resolveInput cfg env st with
        | .ok r => confirmCalls r.evs
        | .error e => confirmCalls e.2) := by
  unfold cycle
  cases h : resolveInput cfg env st with
  | error e =>
    obtain ⟨k, evs⟩ := e
    cases k <;> simp [confirmCalls_append, confirmCalls]
  | ok r =>
    dsimp only
    split_ifs <;>
      simp [confirmCalls_append, confirmCalls_postInput, confirmCalls]

lemma confirmCalls_resolve_of_pre {cfg : Cfg} {env : Env} {st : St}
    {on1 : Option Bool} {re1 : Option Int} {evs1 : List Ev}
    (hpre : preSafety cfg env st = .ok (on1, re1, evs1)) :
    ∃ r, resolveInput cfg env st = .ok r ∧ confirmCalls r.evs = confirmCalls evs1 := by
  unfold resolveInput
  rw [hpre]
  dsimp only
  split_ifs with hc
  · cases hsafe : env.api_safety with
    | ok b =>
      exact ⟨_, rfl, by simp [confirmCalls_append, confirmCalls]⟩
    | err n =>
      exact ⟨_, rfl, by
        cases n <;> simp [confirmCalls_append, confirmCalls_apiErrEvs, confirmCalls]⟩
  · exact ⟨_, rfl, rfl⟩

/-! ## Claims -/

/-- C8: for a `set_switch` response with `success=false`, if the lowered
response text contains "already" or "offline" the call returns normally
with no debug notification (benign no-op); any other `success=false`
response sends a debug notification and raises a reportable
`RuntimeError`. -/
theorem C8_set_switch_benign_noop (dataStr : String) :
    ((pyContains (pyLower dataStr) "already" || pyContains (pyLower dataStr) "offline") = true →
      set_switch_run (SwResp.resp false dataStr) = (Except.ok (), [])) ∧
    ((pyContains (pyLower dataStr) "already" || pyContains (pyLower dataStr) "offline") = false →
      set_switch_run (SwResp.resp false dataStr) = (Except.error SwErr.runtime, [Ev.debugMsg])) := by
  constructor <;> intro h <;> simp [set_switch_run, h]

/-- Witness for C8 at two concrete responses: an "already" response is a
silent no-op, a "rate limit" response raises with a debug notification. -/
theorem C8_witness :
    set_switch_run (SwResp.resp false "device already enabled") = (Except.ok (), []) ∧
    set_switch_run (SwResp.resp false "rate limit exceeded") = (Except.error SwErr.runtime, [Ev.debugMsg]) :=
  ⟨(C8_set_switch_benign_noop "device already enabled").1 (by decide),
   (C8_set_switch_benign_noop "rate limit exceeded").2 (by decide)⟩

/-- C6: `ping_confirm` sends `PING_CONFIRM_COUNT` packets (default 10)
spaced 1 s apart and declares reachable iff any sample succeeds; the
escalated `confirm_offline_status` returns online as soon as any of its
up-to-3 rounds succeeds, and only when all three fail falls back to the
cloud lookup as tie-breaker (keeping the previous state if that lookup
raises). -/
theorem C6_confirmation_sampler (e : ConfirmEnv) (l : Option Bool)
    (samples : List Bool) (rc : Nat) (h : String) :
    ping_confirm_cmd (ping_confirm_use_count (PING_CONFIRM_COUNT none) none) h =
      ["ping", "-c", "10", "-i", "1", "-W", "1", h] ∧
    ping_confirm_decision (some (samples.count true)) rc = samples.any (fun x => x) ∧
    (e.r1 = some true →
      confirm_offline_status e l = (some true, [Ev.pingConfirmRound])) ∧
    (e.r1 ≠ some true → e.r2 = some true →
      confirm_offline_status e l = (some true, [Ev.pingConfirmRound, Ev.pingConfirmRound])) ∧
    (e.r1 ≠ some true → e.r2 ≠ some true → e.r3 = some true →
      confirm_offline_status e l =
        (some true, [Ev.pingConfirmRound, Ev.pingConfirmRound, Ev.pingConfirmRound])) ∧
    (e.r1 ≠ some true → e.r2 ≠ some true → e.r3 ≠ some true →
      (∀ b, e.api = .ok b → (confirm_offline_status e l).1 = some b) ∧
      (∀ m, e.api = .err m → (confirm_offline_status e l).1 = l) ∧
      Ev.apiOnlineCall ∈ (confirm_offline_status e l).2) := by
  refine ⟨rfl, count_true_any samples, ?_, ?_, ?_, ?_⟩
  · intro h1; simp [confirm_offline_status, h1]
  · intro h1 h2; simp [confirm_offline_status, h1, h2]
  · intro h1 h2 h3; simp [confirm_offline_status, h1, h2, h3]
  · intro h1 h2 h3
    refine ⟨?_, ?_, ?_⟩
    · intro b hb; simp [confirm_offline_status, h1, h2, h3, hb]
    · intro m hm; simp [confirm_offline_status, h1, h2, h3, hm]
    · cases hapi : e.api with
      | ok b => simp [confirm_offline_status, h1, h2, h3, hapi]
      | err m => cases m <;> simp [confirm_offline_status, h1, h2, h3, hapi]

/-- Witness for C6: first-round success stops the sampler after one
round; the any-sample rule on a concrete sample list; an all-fail run
reaches the cloud lookup. -/
theorem C6_witness :
    confirm_offline_status confirmOk none = (some true, [Ev.pingConfirmRound]) ∧
    ping_confirm_decision (some ([false, true, false].count true)) 1 =
      [false, true, false].any (fun x => x) ∧
    Ev.apiOnlineCall ∈ (confirm_offline_status confirmFail none).2 :=
  ⟨(C6_confirmation_sampler confirmOk none [] 0 "gw").2.2.1 (by decide),
   (C6_confirmation_sampler confirmOk none [false, true, false] 1 "gw").2.1,
   ((C6_confirmation_sampler confirmFail none [] 0 "gw").2.2.2.2.2
     (by decide) (by decide) (by decide)).2.2⟩

/-- C3 (amended): during the restore batch every configured device is
attempted in order no matter how the previous attempts fail, and the
batch never lets an exception escape; during the outage batch the same
holds provided no attempt hits a transport error — a `RuntimeError` is
swallowed and the batch continues, but (as the counterexample shows) a
transport error escapes the batch into the control loop. -/
theorem C3_per_device_isolation (devs : List String) (resps : List SwResp) :
    actView (runRestore devs resps) = restoreActs devs ∧
    (noTransport resps = true →
      (runOutage devs resps).2 = false ∧
      actView (runOutage devs resps).1 = outageActs devs) :=
  ⟨runRestore_actView devs resps, fun h => runOutage_noTransport devs resps h⟩

/-- Witness for C3: with one parse failure among the outcomes, both
batches still attempt every device and nothing escapes. -/
theorem C3_witness :
    actView (runRestore ["d1", "d2"] [SwResp.parseErr]) = restoreActs ["d1", "d2"] ∧
    (runOutage ["d1", "d2"] [SwResp.parseErr]).2 = false ∧
    actView (runOutage ["d1", "d2"] [SwResp.parseErr]).1 = outageActs ["d1", "d2"] :=
  ⟨(C3_per_device_isolation ["d1", "d2"] [SwResp.parseErr]).1,
   ((C3_per_device_isolation ["d1", "d2"] [SwResp.parseErr]).2 (by decide)).1,
   ((C3_per_device_isolation ["d1", "d2"] [SwResp.parseErr]).2 (by decide)).2⟩

/-- Counterexample to C3 as stated: on a transition to offline whose
first `set_switch` hits a transport error, the exception escapes the
actuation block to the loop boundary and the second device is never
attempted. -/
theorem C3_counterexample :
    (cycle cfgW envBbad stOnW).caught = true ∧
    Ev.swCall "d1" false ∈ (cycle cfgW envBbad stOnW).evs ∧
    Ev.swCall "d2" false ∉ (cycle cfgW envBbad stOnW).evs := by
  decide

/-- C7 (code bug): the claim fails on a reachable path. With no ping host
configured (API-only mode, line 541), a due delayed retry calls
`confirm_offline_status(client, None, ...)` (line 568), and inside
`ping_confirm` the `" ".join(cmd)` at line 161 on a command list
containing `None` raises a `TypeError` that neither
`except (OSError, subprocess.SubprocessError)` nor the loop boundary's
`except (RequestException, RuntimeError)` catches: the process terminates
mid-cycle with no debug notification and no sleep — against both the
claim and `ping_confirm`'s own contract of returning `None` when ping
cannot run. By contrast, a catchable error at the same state is caught,
debug-notified and followed by the normal sleep, as the claim says. -/
theorem C7_uncaught_fatal_retry :
    cfgApi.ping_host = none ∧
    retryDue envDueRetry stOffApi = true ∧
    (cycle cfgApi envDueRetry stOffApi).crashed = true ∧
    (cycle cfgApi envDueRetry stOffApi).caught = false ∧
    Ev.debugMsg ∉ (cycle cfgApi envDueRetry stOffApi).evs ∧
    Ev.endSleep cfgApi.ping_interval ∉ (cycle cfgApi envDueRetry stOffApi).evs ∧
    (cycle cfgApi envApiErrOnly stOffApi).crashed = false ∧
    (cycle cfgApi envApiErrOnly stOffApi).caught = true ∧
    Ev.debugMsg ∈ (cycle cfgApi envApiErrOnly stOffApi).evs ∧
    (cycle cfgApi envApiErrOnly stOffApi).evs.getLast? =
      some (Ev.endSleep cfgApi.ping_interval) := by
  decide

/-- C9: on a transition from offline to online the iteration emits, in
order, one restore alert, one `set_switch(dev, True)` attempt per
configured device each followed by the 15 s pause, and finally the
`set_switch` of the primary liveness device — and nothing escapes to the
loop boundary. -/
theorem C9_restore_order (cfg : Cfg) (env : Env) (st : St)
    (hs : st.last_state = some false)
    (hin : inputOnline cfg env st = some (some true)) :
    actView (cycle cfg env st).evs =
      Ev.alertRestore :: (restoreActs cfg.disable_ids ++ [Ev.swCall cfg.device_id true]) ∧
    (cycle cfg env st).caught = false := by
  unfold inputOnline at hin
  cases hre : resolveInput cfg env st with
  | error evs => rw [hre] at hin; simp at hin
  | ok r =>
    rw [hre] at hin
    simp only [Option.some.injEq] at hin
    obtain ⟨hv, _, _, hc, _⟩ :=
      cycle_transition hs (by decide) hre hin (fun hh => absurd hh (by decide))
    refine ⟨?_, hc⟩
    simpa using hv

/-- Witness for C9: concrete restore transition with one failing restore
response — the full ordered batch is still emitted, primary last. -/
theorem C9_witness :
    actView (cycle cfgW envOn stOffW).evs =
      Ev.alertRestore :: (restoreActs cfgW.disable_ids ++ [Ev.swCall cfgW.device_id true]) ∧
    (cycle cfgW envOn stOffW).caught = false :=
  C9_restore_order cfgW envOn stOffW rfl (by decide)

/-- C10: before the first verdict is seeded, the iteration records the
resolved input as the new baseline — in particular an indeterminate input
(`none`) leaves the verdict unseeded — and a seeding iteration performs no
actuation and raises nothing. -/
theorem C10_unseeded_defers (cfg : Cfg) (env : Env) (st : St) (o : Option Bool)
    (hs : st.last_state = none)
    (hin : inputOnline cfg env st = some o) :
    (cycle cfg env st).st.last_state = o ∧
    actView (cycle cfg env st).evs = [] ∧
    (cycle cfg env st).caught = false := by
  unfold inputOnline at hin
  cases hre : resolveInput cfg env st with
  | error evs => rw [hre] at hin; simp at hin
  | ok r =>
    rw [hre] at hin
    simp only [Option.some.injEq] at hin
    obtain ⟨hevs, hlast, _, _, _, hcaught, _, _⟩ := cycle_seed hs hre
    refine ⟨hin ▸ hlast, ?_, hcaught⟩
    rw [hevs, actView_append, resolveInput_ok_actView hre]
    rfl

/-- Witness for C10 at the indeterminate pre-seed iteration (probe fails,
all confirmation rounds fail, cloud lookup raises): the verdict stays
unseeded and nothing is actuated. -/
theorem C10_witness :
    (cycle cfgW envInd stNoneW).st.last_state = none ∧
    actView (cycle cfgW envInd stNoneW).evs = [] ∧
    (cycle cfgW envInd stNoneW).caught = false :=
  C10_unseeded_defers cfgW envInd stNoneW none rfl (by decide)

/-- C1 (amended): provided no outage-batch `set_switch` hits a transport
error, a verdict-transition iteration invokes the Actuator exactly once —
the single alert followed by the full batch — and any number of
subsequent iterations that resolve to the same post-transition verdict
(with the guard flags left consistent) emit no actuation events at all;
the transport-error proviso is forced by the counterexample, where the
escaped outage batch leaves the guard flag clear and the next same-verdict
iteration actuates again. -/
theorem C1_actuator_once_per_transition (cfg : Cfg) (e : Env) (es : List Env)
    (st : St) (a b : Bool)
    (hs : st.last_state = some a) (hab : a ≠ b)
    (hin : inputOnline cfg e st = some (some b))
    (hg : noTransport e.swOutage = true)
    (hrest : sameObs cfg b (cycleSt cfg e st) es = true) :
    actView ((cycle cfg e st).evs ++ (run cfg (cycleSt cfg e st) es).2) =
      (if b then
        Ev.alertRestore :: (restoreActs cfg.disable_ids ++ [Ev.swCall cfg.device_id true])
      else
        Ev.alertOutage :: outageActs cfg.disable_ids) ∧
    (run cfg (cycleSt cfg e st) es).1.last_state = some b := by
  unfold inputOnline at hin
  cases hre : resolveInput cfg e st with
  | error evs => rw [hre] at hin; simp at hin
  | ok r =>
    rw [hre] at hin
    simp only [Option.some.injEq] at hin
    obtain ⟨hview, hls, hfl, _, _⟩ := cycle_transition hs hab hre hin (fun _ => hg)
    obtain ⟨hrv, hrl, _⟩ := run_sameObs es (cycleSt cfg e st)
      (by simpa [cycleSt] using hls) (by simpa [cycleSt] using hfl) hrest
    rw [actView_append, hview, hrv]
    exact ⟨by simp, hrl⟩

/-- Witness for C1 at a concrete offline transition followed by one more
iteration observing the same offline verdict: one alert and one batch in
total. -/
theorem C1_witness :
    actView ((cycle cfgW envB stOnW).evs ++ (run cfgW (cycleSt cfgW envB stOnW) [envB2]).2) =
      Ev.alertOutage :: outageActs cfgW.disable_ids ∧
    (run cfgW (cycleSt cfgW envB stOnW) [envB2]).1.last_state = some false := by
  have h := C1_actuator_once_per_transition cfgW envB [envB2] stOnW true false
    rfl (by decide) (by decide) (by decide) (by decide)
  simpa using h

/-- Counterexample to C1 as stated: the first iteration is the only
transition (online to offline) and its outage batch escapes on a
transport error; the second iteration resolves to the same offline
verdict, yet emits a second outage alert — the Actuator runs twice for
one transition. -/
theorem C1_counterexample :
    stOnW.last_state = some true ∧
    inputOnline cfgW envBbad stOnW = some (some false) ∧
    (cycle cfgW envBbad stOnW).evs.count Ev.alertOutage = 1 ∧
    (cycle cfgW envBbad stOnW).st.last_state = some false ∧
    inputOnline cfgW envB2 (cycle cfgW envBbad stOnW).st = some (some false) ∧
    (cycle cfgW envB2 (cycle cfgW envBbad stOnW).st).evs.count Ev.alertOutage = 1 := by
  decide

/-- C2 (amended): whenever a ping host is configured and the single
primary probe fails, `confirm_offline_status` is invoked — regardless of
the previous verdict, in particular also when it is already offline — and
it is invoked a second time in the same iteration exactly when a delayed
retry is due. -/
theorem C2_sampler_reruns_while_offline (cfg : Cfg) (env : Env) (st : St)
    (hhost : cfg.ping_host.isSome = true)
    (hping : env.ping_once = some false) :
    confirmCalls (cycle cfg env st).evs = 1 + (if retryDue env st then 1 else 0) := by
  have hps : primaryStep env st.last_state cfg.ping_host.isSome =
      .ok ((confirm_offline_status env.confirm1 st.last_state).1,
        [Ev.pingOnceCall, Ev.confirmCall] ++
          (confirm_offline_status env.confirm1 st.last_state).2) := by
    simp [primaryStep, hhost, hping]
  cases hrd : retryDue env st with
  | false =>
    have hpre : preSafety cfg env st =
        .ok ((confirm_offline_status env.confirm1 st.last_state).1,
          st.last_api_retry_time,
          [Ev.pingOnceCall, Ev.confirmCall] ++
            (confirm_offline_status env.confirm1 st.last_state).2) := by
      unfold preSafety
      rw [hps]
      simp [hrd]
    obtain ⟨r, hr, hcount⟩ := confirmCalls_resolve_of_pre hpre
    rw [confirmCalls_cycle, hr]
    simpa [confirmCalls_append, confirmCalls_confirm, confirmCalls] using hcount
  | true =>
    obtain ⟨hostv, hh⟩ := Option.isSome_iff_exists.mp hhost
    have hpre : preSafety cfg env st =
        .ok ((confirm_offline_status env.confirm2 st.last_state).1,
          (if truthy (confirm_offline_status env.confirm2 st.last_state).1 then none
            else some (env.now + cfg.api_retry_delay)),
          ([Ev.pingOnceCall, Ev.confirmCall] ++
              (confirm_offline_status env.confirm1 st.last_state).2) ++
            [Ev.confirmCall] ++ (confirm_offline_status env.confirm2 st.last_state).2) := by
      unfold preSafety
      rw [hps]
      simp [hrd, hh]
    obtain ⟨r, hr, hcount⟩ := confirmCalls_resolve_of_pre hpre
    rw [confirmCalls_cycle, hr]
    simpa [confirmCalls_append, confirmCalls_confirm, confirmCalls] using hcount

/-- Witness for C2: offline observation from an already-offline state
with no retry pending — exactly one sampler invocation. -/
theorem C2_witness : confirmCalls (cycle cfgW envB stOffW).evs = 1 := by
  have h := C2_sampler_reruns_while_offline cfgW envB stOffW rfl rfl
  rw [h]
  decide

/-- Counterexample to C2 as stated: the previous verdict is already
offline and the probe fails once, yet the full confirmation sequence is
re-run (one sampler invocation, where the claim requires zero). -/
theorem C2_counterexample :
    stOffW.last_state = some false ∧
    envB.ping_once = some false ∧
    confirmCalls (cycle cfgW envB stOffW).evs = 1 := by
  decide

/-- C4 (amended): if a ping host is configured, the primary probe reports
reachable and no delayed retry is due this iteration, the verdict input
is online regardless of any other prior confirmation state; the
no-due-retry proviso is forced by the counterexample, where a due retry
re-runs the confirmation and overwrites the probe's online input. -/
theorem C4_reachable_input_online_unless_retry (cfg : Cfg) (env : Env) (st : St)
    (hhost : cfg.ping_host.isSome = true)
    (hping : env.ping_once = some true)
    (hnr : retryDue env st = false) :
    inputOnline cfg env st = some (some true) := by
  have hps : primaryStep env st.last_state cfg.ping_host.isSome =
      .ok (some true, [Ev.pingOnceCall]) := by
    simp [primaryStep, hhost, hping]
  have hpre : preSafety cfg env st =
      .ok (some true, st.last_api_retry_time, [Ev.pingOnceCall]) := by
    unfold preSafety
    rw [hps]
    simp [hnr]
  unfold inputOnline resolveInput
  rw [hpre]
  simp [truthy]

/-- Witness for C4: reachable probe with no retry pending resolves to an
online input. -/
theorem C4_witness : inputOnline cfgW envOn stOffW = some (some true) :=
  C4_reachable_input_online_unless_retry cfgW envOn stOffW rfl rfl rfl

/-- Counterexample to C4 as stated: the probe reports reachable, but a
pending delayed retry is due and its confirmation resolves the input to
offline. -/
theorem C4_counterexample :
    envRetryPing.ping_once = some true ∧
    stRetryW.last_api_retry_time = some 5 ∧
    inputOnline cfgW envRetryPing stRetryW = some (some false) := by
  decide

/-- C5: when the input before the safety check is not truthy, more than
the configured interval has passed since the last authoritative cloud
check, and the forced lookup raises, the verdict is held unchanged (no
transition), no actuation occurs, a debug notification is sent, a delayed
retry is scheduled and nothing reaches the loop boundary (the guard flags
are assumed consistent with the recorded verdict). -/
theorem C5_safety_error_holds_verdict (cfg : Cfg) (env : Env) (st : St)
    (on1 : Option Bool) (n : Bool)
    (hf : flagsOk st = true)
    (hpre : preSafetyOnline cfg env st = some on1)
    (h1 : truthy on1 = false)
    (h2 : env.now - st.last_api_check > cfg.api_offline_interval)
    (h3 : env.api_safety = ApiR.err n) :
    (cycle cfg env st).st.last_state = st.last_state ∧
    (cycle cfg env st).st.last_api_retry_time = some (env.now + cfg.api_retry_delay) ∧
    actView (cycle cfg env st).evs = [] ∧
    Ev.debugMsg ∈ (cycle cfg env st).evs ∧
    (cycle cfg env st).caught = false := by
  unfold preSafetyOnline at hpre
  cases hps : preSafety cfg env st with
  | error evs => rw [hps] at hpre; simp at hpre
  | ok x =>
    rw [hps] at hpre
    simp only [Option.some.injEq] at hpre
    have hr : resolveInput cfg env st = .ok
        { online := st.last_state
          last_api_check := st.last_api_check
          retry := some (env.now + cfg.api_retry_delay)
          evs := x.2.2 ++ apiErrEvs n ++ [Ev.debugMsg] } := by
      unfold resolveInput
      rw [hps]
      dsimp only
      have hcond : (!truthy x.1 &&
          decide (env.now - st.last_api_check > cfg.api_offline_interval)) = true := by
        rw [hpre, h1]
        simp [h2]
      simp [hcond, h3]
    have hract : actView (x.2.2 ++ apiErrEvs n ++ [Ev.debugMsg]) = [] :=
      resolveInput_ok_actView hr
    cases hls : st.last_state with
    | none =>
      obtain ⟨hevs, hlast, _, _, hretry, hcaught, _, _⟩ := cycle_seed hls hr
      have hevs' : (cycle cfg env st).evs =
          (x.2.2 ++ apiErrEvs n ++ [Ev.debugMsg]) ++ [Ev.endSleep cfg.ping_interval] := hevs
      refine ⟨?_, hretry, ?_, ?_, hcaught⟩
      · rw [hlast]; exact hls
      · rw [hevs', actView_append, hract]; rfl
      · rw [hevs']; simp
    | some b =>
      obtain ⟨hevs, hlast, _, _, hretry, hcaught, _⟩ := cycle_same_state hls hf hr hls
      have hevs' : (cycle cfg env st).evs =
          (x.2.2 ++ apiErrEvs n ++ [Ev.debugMsg]) ++ [Ev.endSleep cfg.ping_interval] := hevs
      refine ⟨?_, hretry, ?_, ?_, hcaught⟩
      · exact hlast
      · rw [hevs', actView_append, hract]; rfl
      · rw [hevs']; simp

/-- Witness for C5 at a concrete offline state whose safety-check lookup
raises: the verdict is held offline, a retry is scheduled, nothing is
actuated. -/
theorem C5_witness :
    (cycle cfgW envSafety stOffW).st.last_state = stOffW.last_state ∧
    (cycle cfgW envSafety stOffW).st.last_api_retry_time =
      some (envSafety.now + cfgW.api_retry_delay) ∧
    actView (cycle cfgW envSafety stOffW).evs = [] ∧
    Ev.debugMsg ∈ (cycle cfgW envSafety stOffW).evs ∧
    (cycle cfgW envSafety stOffW).caught = false :=
  C5_safety_error_holds_verdict cfgW envSafety stOffW (some false) true
    (by decide) (by decide) (by decide) (by decide) (by decide)

end TuyaMonitor
